import Mathlib

/-!
Shallow embedding of the `@bhar2254/mysql` package core
(`mysql-helper.js` query builders / executor, `mysql-object.js` SQLObject)
together with theorems checking the specification's claims about it.

JavaScript values flowing through the query builders and the SQLObject
state are modelled by `JSValue` (scalars only: the package stores row
values that are strings, numbers, booleans, `null` or `undefined`).
Row objects are association lists; property lookup on a missing key
yields `undefined`, as in JavaScript.
-/

/-- Scalar JavaScript value as used for row values, ids and option fields. -/
inductive JSValue where
  | vNull
  | vUndefined
  | vBool (b : Bool)
  | vNum (n : Int)
  | vStr (s : String)
deriving DecidableEq, Repr

/-- JavaScript truthiness of a scalar value. -/
def JSValue.truthy : JSValue → Bool
  | .vNull => false
  | .vUndefined => false
  | .vBool b => b
  | .vNum n => n != 0
  | .vStr s => s != ""

/-- JavaScript `String(value)` conversion for scalars (used by template
literal interpolation and by `escapeValue`). -/
def JSValue.toJSString : JSValue → String
  | .vNull => "null"
  | .vUndefined => "undefined"
  | .vBool b => if b then "true" else "false"
  | .vNum n => toString n
  | .vStr s => s

/-- A row object: column name to scalar value, keys unique in practice
(JavaScript object). -/
abbrev Row := List (String × JSValue)

/-- JavaScript property access `obj[key]` on an object literal:
the value of the first matching key, `undefined` when absent. -/
def jsGet : List (String × JSValue) → String → JSValue
  | [], _ => .vUndefined
  | (k, v) :: rest, key => if k = key then v else jsGet rest key

/-- Whether `key` is a property of the object (`key in obj`). -/
def containsKey (m : List (String × JSValue)) (key : String) : Bool :=
  m.any (fun p => p.1 == key)

/-- JavaScript `key.startsWith('_')`: for the one-character pattern this
is exactly "the first character is an underscore". -/
def startsWithUnderscore (s : String) : Bool :=
  s.data.head? == some '_'

/-- JavaScript `Array.prototype.join(sep)` on a list of strings. -/
def joinWith (sep : String) : List String → String
  | [] => ""
  | [x] => x
  | x :: y :: xs => x ++ sep ++ joinWith sep (y :: xs)

/-- JavaScript `String.prototype.replace(/c/g, r)` for a single-character
pattern: replace every occurrence of the character `c` by `r`. -/
def replaceAllChar (s : String) (c : Char) (r : String) : String :=
  String.join (s.data.map (fun ch => if ch = c then r else String.singleton ch))

/-- Apostrophe character (kept out of string literals). -/
def squoteChar : Char := Char.ofNat 39

/-- `escapeValue(value)` from mysql-helper.js: `String(value)` then escape
backslash, single quote, double quote and NUL, in that order. -/
def escapeValue (value : JSValue) : String :=
  let s1 := replaceAllChar value.toJSString '\\' "\\\\"
  let s2 := replaceAllChar s1 squoteChar ("\\" ++ String.singleton squoteChar)
  let s3 := replaceAllChar s2 '"' "\\\""
  replaceAllChar s3 (Char.ofNat 0) "\\0"

/-- `buildInsertQuery(table, data, properties, safe = true)` from
mysql-helper.js.  Filters `Object.keys(data)` by: key does not start
with an underscore, `properties[key]` is truthy, `data[key]` is truthy;
returns `null` (here `none`) when no key remains; otherwise joins column
names with a backtick-comma-space-backtick separator and values with a
quote-comma-space-quote separator inside the template
`INSERT INTO <table> (` .. `) VALUES (" .. ");`.  The `safe` flag is a
JavaScript value tested for truthiness (`safe ? escapeValue(..) : ..`). -/
def buildInsertQuery (table : String) (data : List (String × JSValue))
    (properties : List (String × JSValue)) (safe : JSValue) : Option String :=
  let elements := (data.map Prod.fst).filter
    (fun key => !(startsWithUnderscore key) && (jsGet properties key).truthy && (jsGet data key).truthy)
  if elements.isEmpty then none
  else
    let columns := joinWith "`, `" elements
    let values := joinWith "\", \"" (elements.map
      (fun key => if safe.truthy then escapeValue (jsGet data key) else (jsGet data key).toJSString))
    some ("INSERT INTO " ++ table ++ " (`" ++ columns ++ "`) VALUES (\"" ++ values ++ "\");")

/-- Recognized fields of the `args` object of `buildSelectQuery`
(`{ limit, offset, orderBy, groupBy, where }`); a missing field is
`undefined`.  `whereArg` models the `where` property: `none` when the
property is absent or falsy, `some obj` when it is a (truthy) object. -/
structure SelectArgs where
  limit : JSValue := .vUndefined
  offset : JSValue := .vUndefined
  orderBy : JSValue := .vUndefined
  groupBy : JSValue := .vUndefined
  whereArg : Option (List (String × JSValue)) := none
deriving DecidableEq, Repr

/-- The `timeConversion` computation at the start of `buildSelectQuery`:
the source filters the schema keys whose data type is `date` or
`datetime` and maps each to a template literal that reads the free
identifiers `date_format` / `datetime_format` — identifiers that are
declared nowhere in the package, so evaluating the first such template
throws a `ReferenceError`.  The error carries the name that is read
(`date_format` when the first date-like column is of type `date`). -/
def timeConversionResult (properties : List (String × JSValue)) : Except String String :=
  match (properties.map Prod.fst).filter
      (fun key => jsGet properties key == .vStr "date" || jsGet properties key == .vStr "datetime") with
  | [] => .ok ""
  | key :: _ =>
      .error (if jsGet properties key == .vStr "date"
        then "ReferenceError: date_format is not defined"
        else "ReferenceError: datetime_format is not defined")

/-- `buildSelectQuery(table, properties, id, key, all, args)` from
mysql-helper.js.  `.error` models the `ReferenceError` thrown while
building the time-conversion projection (see `timeConversionResult`);
otherwise the exact statement text is produced: a `WHERE` fragment from
`args.where` joined with ` AND ` (no leading space, as in the source),
else nothing when `all`, else ` WHERE <key> = "<id>"`, then the
`ORDER BY` / `GROUP BY` / `OFFSET` / `LIMIT` fragments for the truthy
option fields, then `;`. -/
def buildSelectQuery (table : String) (properties : List (String × JSValue))
    (id : JSValue) (key : String) (all : Bool) (args : SelectArgs) : Except String String :=
  match timeConversionResult properties with
  | .error e => .error e
  | .ok timeConversion =>
    let whereStmt :=
      match args.whereArg with
      | some w => joinWith " AND "
          ((w.map Prod.fst).map (fun x => x ++ " " ++ (jsGet w x).toJSString))
      | none => if all then "" else " WHERE " ++ key ++ " = \"" ++ id.toJSString ++ "\""
    .ok ("SELECT *" ++ timeConversion ++ " FROM " ++ table ++ whereStmt
      ++ (if args.orderBy.truthy then " ORDER BY " ++ args.orderBy.toJSString else "")
      ++ (if args.groupBy.truthy then " GROUP BY " ++ args.groupBy.toJSString else "")
      ++ (if args.offset.truthy then " OFFSET " ++ args.offset.toJSString else "")
      ++ (if args.limit.truthy then " LIMIT " ++ args.limit.toJSString else "")
      ++ ";")

/-- `buildDeleteQuery(table, id)` from mysql-helper.js:
`DELETE FROM <table> WHERE guid = "<id>";` — the filter column is the
literal `guid`; the function takes no key-column parameter at all. -/
def buildDeleteQuery (table : String) (id : JSValue) : String :=
  "DELETE FROM " ++ table ++ " WHERE guid = \"" ++ id.toJSString ++ "\";"

/-- Result of `queryPromise` as seen by its callers: a row array for a
SELECT, or a result-set header (carrying `insertId`) for DML. -/
inductive QPResult where
  | rows (rs : List Row)
  | header (insertId : JSValue)
deriving DecidableEq, Repr

/-- Resource state for the connection-pool lifecycle: the next fresh pool
identifier, the identifiers of pools created and not yet ended, and the
identifiers of pools that have been ended. -/
structure PoolWorld where
  nextId : Nat
  openPools : List Nat
  endedPools : List Nat
deriving DecidableEq, Repr

/-- `createPool()` from mysql-helper.js: allocates a brand-new pool
(fresh identifier) on every call. -/
def createPool (w : PoolWorld) : Nat × PoolWorld :=
  (w.nextId, { w with nextId := w.nextId + 1, openPools := w.nextId :: w.openPools })

/-- `pool.end()`: the pool leaves the open set and joins the ended set. -/
def poolEnd (pid : Nat) (w : PoolWorld) : PoolWorld :=
  { w with openPools := w.openPools.erase pid, endedPools := pid :: w.endedPools }

/-- `queryPromise(str)` from mysql-helper.js, with the driver modelled by
`exec` (given the pool identifier and the statement, it returns the row
result or throws).  The source is

  `const pool = await createPool(); const result = await pool.query(str);
   pool.end(); const [rows] = result; return rows`

so when `pool.query` rejects, the `await` throws and `pool.end()` is
never reached: the error path returns with the pool still open. -/
def queryPromise (exec : Nat → String → Except String QPResult)
    (str : String) (w : PoolWorld) : Except String QPResult × PoolWorld :=
  let (pid, w1) := createPool w
  match exec pid str with
  | .ok result => (.ok result, poolEnd pid w1)
  | .error e => (.error e, w1)

/-- Outcome of `executeQueryWithRetry`: a returned result, a thrown
error (message text), or the `undefined` fall-through return when the
`while` loop body never runs. -/
inductive RetryResult where
  | success (rows : QPResult)
  | thrown (msg : String)
  | undef
deriving DecidableEq, Repr

/-- The message of the error thrown after exhausting the retries:
`Query failed after <retries> attempts: <lastError.message>`. -/
def retryErrorMsg (retries : Int) (lastMsg : String) : String :=
  "Query failed after " ++ toString retries ++ " attempts: " ++ lastMsg

/-- The `while (attempt < retries)` loop of `executeQueryWithRetry`,
with the outcome of the `queryPromise` call of attempt `i` given by
`exec i`.  `fuel` equals `(retries - attempt).toNat`, so `fuel = 0`
exactly when `attempt < retries` fails and the loop exits (returning
`undefined`).  On a failure the attempt counter is incremented and, when
`attempt >= retries`, the wrapping error is thrown.  The second
component counts how many times `exec` was invoked. -/
def retryGo (exec : Nat → Except String QPResult) (retries : Int) :
    Nat → Nat → RetryResult × Nat
  | _, 0 => (.undef, 0)
  | attempt, fuel + 1 =>
    match exec attempt with
    | .ok rows => (.success rows, 1)
    | .error e =>
      if retries ≤ (attempt + 1 : Int) then (.thrown (retryErrorMsg retries e), 1)
      else
        let next := retryGo exec retries (attempt + 1) fuel
        (next.1, next.2 + 1)

/-- `executeQueryWithRetry(query, retries = 3)` from mysql-helper.js:
`attempt` starts at 0 and the loop runs while `attempt < retries`. -/
def executeQueryWithRetry (exec : Nat → Except String QPResult) (retries : Int) :
    RetryResult × Nat :=
  retryGo exec retries 0 retries.toNat

/-- The `last` record of a SQLObject (`{ query, response }`).  The
setter substitutes a fallback for a falsy `query`; the `response` field
is always an array or a header object, which are truthy in JavaScript,
so it is stored as given. -/
structure LastOp where
  query : String
  response : QPResult
deriving DecidableEq, Repr

/-- The `last` setter of SQLObject applied to `{ query, response }`. -/
def mkLast (q : String) (resp : QPResult) : LastOp :=
  { query := if q = "" then "No query recorded!" else q, response := resp }

/-- Backing state of a `SQLObject`.  Underscored fields are the private
backing fields written by the class's setters; `all` has no setter in
the source and is a plain property.  `Option` models a field that may
still be `undefined`. -/
structure SQLObject where
  _table : String
  _data : Option (List Row)
  _datum : Option Row
  _key : String
  _id : JSValue
  all : Bool
  _properties : Option (List (String × JSValue))
  _initialized : Bool
  _read : Bool
  _last : Option LastOp
deriving DecidableEq, Repr

/-- The `data` getter: `this._data || (this._datum ? [this._datum] : [])`
(an array is always truthy, so the fallback fires only when `_data` is
unset). -/
def SQLObject.dataGet (o : SQLObject) : List Row :=
  match o._data with
  | some arr => arr
  | none =>
    match o._datum with
    | some d => [d]
    | none => []

/-- The `datum` getter: `this._datum || this.data[0] || {}`. -/
def SQLObject.datumGet (o : SQLObject) : Row :=
  match o._datum with
  | some d => d
  | none => o.dataGet.headD []

/-- The `id` getter:
`this.data[0] ? this.data[0][this.key] || this._id : null`. -/
def SQLObject.idGet (o : SQLObject) : JSValue :=
  match o.dataGet.head? with
  | some r0 => if (jsGet r0 o._key).truthy then jsGet r0 o._key else o._id
  | none => .vNull

/-- The argument of an assignment to the `data` property: either an
array of rows or some non-array value. -/
inductive JSInput where
  | arr (rs : List Row)
  | nonArray (v : JSValue)
deriving DecidableEq, Repr

/-- The `data` setter: for an array, store it and run the `datum` setter
on its first element (`undefined` for an empty array); for anything else
only `console.warn` is called and no field changes. -/
def SQLObject.setData (o : SQLObject) (value : JSInput) : SQLObject :=
  match value with
  | .arr rs => { o with _data := some rs, _datum := rs.head? }
  | .nonArray _ => o

/-- The `if (!this._initialized) await this.initialize()` preamble of the
CRUD methods: `initialize` loads the table's property map (its value is
supplied here as `props`, the successful result of `getPropertiesFromDB`)
and stores it via the `properties` setter.  Note the source never sets
`_initialized` to true. -/
def SQLObject.initStep (o : SQLObject) (props : List (String × JSValue)) : SQLObject :=
  if o._initialized then o else { o with _properties := some props }

/-- Return value of `SQLObject.read`: the sentinel `0` for an empty
result, or the fetched row array. -/
inductive ReadResult where
  | empty
  | rows (rs : List Row)
deriving DecidableEq, Repr

/-- `SQLObject.read(args = {})` from mysql-object.js, with the database
modelled by `db` (statement text to result, or a thrown error) and the
property map load by `props`.  The method builds the SELECT (which can
throw, see `buildSelectQuery`), runs it, and then: an empty result (a
row array of length 0, or a header whose `length` is `undefined`) only
records `last` and returns 0; a non-empty row array is stored via the
`data` and `datum` setters, `last` is recorded and `_read` set.  The
state component is returned in every case, a thrown error included. -/
def SQLObject.read (o : SQLObject) (props : List (String × JSValue))
    (db : String → Except String QPResult) (args : SelectArgs) :
    Except String ReadResult × SQLObject :=
  let o1 := o.initStep props
  match buildSelectQuery o1._table (o1._properties.getD []) o1.idGet o1._key o1.all args with
  | .error e => (.error e, o1)
  | .ok query =>
    match db query with
    | .error e => (.error e, o1)
    | .ok resp =>
      match resp with
      | .header h => (.ok .empty, { o1 with _last := some (mkLast query (.header h)) })
      | .rows [] => (.ok .empty, { o1 with _last := some (mkLast query (.rows [])) })
      | .rows (r :: rs) =>
        (.ok (.rows (r :: rs)),
          { o1 with _data := some (r :: rs), _datum := some r,
                    _last := some (mkLast query (.rows (r :: rs))), _read := true })

/-- Return value of `SQLObject.create`: the sentinel `0` when no INSERT
could be built, `undefined` when execution (or the follow-up read)
throws, or the driver response on success. -/
inductive CreateResult where
  | zero
  | undef
  | resp (r : QPResult)
deriving DecidableEq, Repr

/-- The filtering loop of `SQLObject.create`: iterate the schema keys in
order and keep those with a truthy value in `args`. -/
def createFilterFields (properties : List (String × JSValue))
    (args : List (String × JSValue)) : Row :=
  ((properties.map Prod.fst).filter (fun k => (jsGet args k).truthy)).map
    (fun k => (k, jsGet args k))

/-- `SQLObject.create(args)` from mysql-object.js.  After the initialize
preamble it filters `args` down to schema-known truthy fields, then
assigns `this.datum = create` and `this.data = [create]` (both setters)
BEFORE building the INSERT.  A `null` query returns the sentinel 0; a
throwing execution returns `undefined`; on success it sets
`this.key = 'id'`, `this.id = response.insertId` (`undefined` when the
response is a plain row array), records `last`, re-reads the row
(`await this.read()` — a throw inside it is caught and `undefined`
returned), and returns the driver response. -/
def SQLObject.create (o : SQLObject) (props : List (String × JSValue))
    (db : String → Except String QPResult) (args : List (String × JSValue)) :
    CreateResult × SQLObject :=
  let o1 := o.initStep props
  let properties := o1._properties.getD []
  let table := o1._table
  let safe := match jsGet args "safe" with
    | .vUndefined => JSValue.vBool true
    | v => v
  let createFields := createFilterFields properties args
  let o2 := { o1 with _datum := some createFields, _data := some [createFields] }
  match buildInsertQuery table createFields properties safe with
  | none => (.zero, o2)
  | some query =>
    match db query with
    | .error _ => (.undef, o2)
    | .ok resp =>
      let o3 := { o2 with
        _key := "id",
        _id := (match resp with | .header i => i | .rows _ => JSValue.vUndefined),
        _last := some (mkLast query resp) }
      match SQLObject.read o3 props db {} with
      | (.error _, o4) => (.undef, o4)
      | (.ok _, o4) => (.resp resp, o4)

/-- Sample property map for concrete instantiations. -/
def sampleProps : List (String × JSValue) :=
  [("guid", .vStr "varchar"), ("name", .vStr "varchar")]

/-- Sample SQLObject state (a freshly constructed object bound to table
`widgets`, keyed on `guid`, holding one in-memory row). -/
def sampleObj : SQLObject :=
  { _table := "widgets"
    _data := some [[("guid", .vStr "g1")]]
    _datum := some [("guid", .vStr "g1")]
    _key := "guid"
    _id := .vNull
    all := false
    _properties := none
    _initialized := false
    _read := false
    _last := none }

/-- Sample database oracle that returns an empty row set for every
statement. -/
def sampleDb : String → Except String QPResult := fun _ => .ok (.rows [])

/- ------------------------------------------------------------------ -/
/- Helper lemmas                                                       -/
/- ------------------------------------------------------------------ -/

theorem initStep_data (o : SQLObject) (props : List (String × JSValue)) :
    (o.initStep props)._data = o._data := by
  unfold SQLObject.initStep; split <;> rfl

theorem initStep_datum (o : SQLObject) (props : List (String × JSValue)) :
    (o.initStep props)._datum = o._datum := by
  unfold SQLObject.initStep; split <;> rfl

theorem buildSelectQuery_ok_ne_empty (table : String)
    (properties : List (String × JSValue)) (id : JSValue) (key : String)
    (all : Bool) (args : SelectArgs) (q : String)
    (h : buildSelectQuery table properties id key all args = .ok q) : q ≠ "" := by
  unfold buildSelectQuery at h
  cases htc : timeConversionResult properties with
  | error e => rw [htc] at h; exact absurd h (by simp)
  | ok tc =>
    rw [htc] at h
    simp only [Except.ok.injEq] at h
    intro hq
    rw [hq] at h
    have hlen := congrArg String.length h
    simp only [String.length_append] at hlen
    have h8 : ("SELECT *" : String).length = 8 := rfl
    have h0 : ("" : String).length = 0 := rfl
    omega

theorem read_error_state (o : SQLObject) (props : List (String × JSValue))
    (db : String → Except String QPResult) (args : SelectArgs) (e : String)
    (o' : SQLObject) :
    SQLObject.read o props db args = (.error e, o') → o' = o.initStep props := by
  intro h
  simp only [SQLObject.read] at h
  split at h
  · simp only [Prod.mk.injEq] at h
    exact h.2.symm
  · split at h
    · simp only [Prod.mk.injEq] at h
      exact h.2.symm
    · split at h <;> simp only [Prod.mk.injEq] at h <;> simp at h

/- ------------------------------------------------------------------ -/
/- Claim theorems                                                      -/
/- ------------------------------------------------------------------ -/

/-- C1 (counterexample): the claim "buildInsertQuery returns null iff no
key of the row is both schema-known and mapped to a truthy value" is
false.  First input: the row key `_a` is present in the property map and
its row value `"x"` is truthy, yet the query is `null` because the key
starts with an underscore.  Second input: the key `a` is present in the
property map (mapped to the empty string) and its row value is truthy,
yet the query is `null` because the mapped data type is falsy. -/
theorem buildInsertQuery_none_iff_cex :
    (buildInsertQuery "t" [("_a", .vStr "x")] [("_a", .vStr "int")] (.vBool true) = none
      ∧ containsKey [("_a", .vStr "int")] "_a" = true
      ∧ (jsGet [(("_a" : String), JSValue.vStr "x")] "_a").truthy = true)
    ∧ (buildInsertQuery "t" [("a", .vStr "x")] [("a", .vStr "")] (.vBool true) = none
      ∧ containsKey [("a", .vStr "")] "a" = true
      ∧ (jsGet [(("a" : String), JSValue.vStr "x")] "a").truthy = true) := by
  exact ⟨⟨rfl, rfl, rfl⟩, ⟨rfl, rfl, rfl⟩⟩

/-- C1 (amended): buildInsertQuery returns null iff no key of the row
satisfies all three filter conditions of the source: the key does not
start with an underscore, the property map maps it to a truthy value,
and its row value is truthy. -/
theorem buildInsertQuery_none_iff (table : String)
    (data properties : List (String × JSValue)) (safe : JSValue) :
    buildInsertQuery table data properties safe = none ↔
      ∀ key ∈ data.map Prod.fst,
        startsWithUnderscore key = true
        ∨ (jsGet properties key).truthy = false
        ∨ (jsGet data key).truthy = false := by
  have hstep : buildInsertQuery table data properties safe = none ↔
      ((data.map Prod.fst).filter
        (fun key => !(startsWithUnderscore key) && (jsGet properties key).truthy
          && (jsGet data key).truthy)) = [] := by
    unfold buildInsertQuery
    split
    next hemp => simp_all [List.isEmpty_iff]
    next hemp => simp_all [List.isEmpty_iff]
  rw [hstep, List.filter_eq_nil_iff]
  refine forall_congr' (fun key => forall_congr' (fun hk => ?_))
  rcases Bool.eq_false_or_eq_true (startsWithUnderscore key) with h1 | h1 <;>
    rcases Bool.eq_false_or_eq_true (jsGet properties key).truthy with h2 | h2 <;>
    rcases Bool.eq_false_or_eq_true (jsGet data key).truthy with h3 | h3 <;>
    simp [h1, h2, h3]

/-- C2 (counterexample): on a row with two schema-known truthy columns
the produced statement is NOT of the claimed shape
INSERT INTO t (`a`,`b`) VALUES ("1","2"); — the identifier list and the
value list are joined with comma-plus-space separators, and the VALUES
clause contains one double-quoted literal per column. -/
theorem buildInsertQuery_shape_cex :
    buildInsertQuery "t" [("a", .vStr "1"), ("b", .vStr "2")]
        [("a", .vStr "int"), ("b", .vStr "int")] (.vBool true)
      = some "INSERT INTO t (`a`, `b`) VALUES (\"1\", \"2\");"
    ∧ buildInsertQuery "t" [("a", .vStr "1"), ("b", .vStr "2")]
        [("a", .vStr "int"), ("b", .vStr "int")] (.vBool true)
      ≠ some "INSERT INTO t (`a`,`b`) VALUES (\"1\",\"2\");" := by
  constructor
  · rfl
  · decide

/-- C2 (amended): for a row with exactly two distinct schema-known
truthy columns and safe mode on, the produced statement is
INSERT INTO <table> (`c1`, `c2`) VALUES ("v1", "v2"); with comma-space
separators — each column contributes its own escaped, double-quoted
value in the VALUES list. -/
theorem buildInsertQuery_two_columns (table k1 k2 : String)
    (p1 p2 v1 v2 : JSValue)
    (h1 : startsWithUnderscore k1 = false) (h2 : startsWithUnderscore k2 = false)
    (hk : k1 ≠ k2)
    (hp1 : p1.truthy = true) (hp2 : p2.truthy = true)
    (hv1 : v1.truthy = true) (hv2 : v2.truthy = true) :
    buildInsertQuery table [(k1, v1), (k2, v2)] [(k1, p1), (k2, p2)] (.vBool true)
      = some ("INSERT INTO " ++ table ++ " (`" ++ k1 ++ "`, `" ++ k2
          ++ "`) VALUES (\"" ++ escapeValue v1 ++ "\", \"" ++ escapeValue v2 ++ "\");") := by
  have e1 : jsGet [(k1, p1), (k2, p2)] k1 = p1 := by simp [jsGet]
  have e2 : jsGet [(k1, p1), (k2, p2)] k2 = p2 := by simp [jsGet, hk]
  have e3 : jsGet [(k1, v1), (k2, v2)] k1 = v1 := by simp [jsGet]
  have e4 : jsGet [(k1, v1), (k2, v2)] k2 = v2 := by simp [jsGet, hk]
  have hel : List.filter
      (fun key => !(startsWithUnderscore key)
        && (jsGet [(k1, p1), (k2, p2)] key).truthy
        && (jsGet [(k1, v1), (k2, v2)] key).truthy) [k1, k2] = [k1, k2] := by
    simp [List.filter, e1, e2, e3, e4, h1, h2, hp1, hp2, hv1, hv2]
  unfold buildInsertQuery
  simp only [List.map_cons, List.map_nil, hel]
  simp [joinWith, e3, e4, String.append_assoc, JSValue.truthy]

/-- C2 (witness for the amended theorem): concrete two-column insert. -/
theorem buildInsertQuery_two_columns_witness :
    buildInsertQuery "t" [("a", .vStr "1"), ("b", .vStr "2")]
        [("a", .vStr "int"), ("b", .vStr "int")] (.vBool true)
      = some ("INSERT INTO " ++ "t" ++ " (`" ++ "a" ++ "`, `" ++ "b"
          ++ "`) VALUES (\"" ++ escapeValue (.vStr "1") ++ "\", \""
          ++ escapeValue (.vStr "2") ++ "\");") :=
  buildInsertQuery_two_columns "t" "a" "b" (.vStr "int") (.vStr "int")
    (.vStr "1") (.vStr "2") rfl rfl (by decide) rfl rfl rfl rfl

/-- C3 (code bug, evaluation at the failing input): as soon as the
schema maps a column to the data type date or datetime, buildSelectQuery
does not return SQL text — it throws a ReferenceError, because the
time-conversion projection reads the identifiers date_format /
datetime_format, which are declared nowhere in the package. -/
theorem buildSelectQuery_date_throws :
    buildSelectQuery "t" [("d", .vStr "date")] (.vNum 1) "guid" false {}
      = .error "ReferenceError: date_format is not defined"
    ∧ buildSelectQuery "t" [("d", .vStr "datetime")] (.vNum 1) "guid" false {}
      = .error "ReferenceError: datetime_format is not defined"
    ∧ buildSelectQuery "t" [("name", .vStr "varchar")] (.vStr "g1") "guid" false {}
      = .ok "SELECT * FROM t WHERE guid = \"g1\";" := by
  exact ⟨rfl, rfl, rfl⟩

/-- C4: buildDeleteQuery always produces
DELETE FROM <table> WHERE guid = "<id>"; — the WHERE clause filters on
the literal column guid.  The function does not even take a key-column
parameter, so the result is independent of any configured key. -/
theorem buildDeleteQuery_filters_guid (table : String) (id : JSValue) :
    buildDeleteQuery table id
      = "DELETE FROM " ++ table ++ " WHERE guid = \"" ++ id.toJSString ++ "\";" :=
  rfl

/-- C5 (counterexample): when query execution fails, queryPromise leaks
the pool.  Starting from a world with no pools, a failing execution
leaves pool 0 created but never ended — `pool.end()` sits after the
`await pool.query(str)` that throws, so it is not reached. -/
theorem queryPromise_leak_cex :
    queryPromise (fun _ _ => .error "boom") "SELECT 1" ⟨0, [], []⟩
      = (.error "boom", { nextId := 1, openPools := [0], endedPools := [] }) := rfl

/-- C5 (amended): every queryPromise call creates a brand-new pool (the
identifier `w.nextId`, never used before, and the counter advances so no
later call reuses it).  On success the pool is ended within the call; on
failure the error propagates before `pool.end()` runs, so the pool stays
open — it is leaked, not torn down. -/
theorem queryPromise_pool_lifecycle (exec : Nat → String → Except String QPResult)
    (str : String) (w : PoolWorld) :
    (queryPromise exec str w).2.nextId = w.nextId + 1
    ∧ (∀ res, exec w.nextId str = .ok res →
        (queryPromise exec str w).2.openPools = w.openPools
        ∧ (queryPromise exec str w).2.endedPools = w.nextId :: w.endedPools)
    ∧ (∀ e, exec w.nextId str = .error e →
        (queryPromise exec str w).2.openPools = w.nextId :: w.openPools
        ∧ (queryPromise exec str w).2.endedPools = w.endedPools) := by
  refine ⟨?_, ?_, ?_⟩
  · unfold queryPromise createPool poolEnd
    cases h : exec w.nextId str <;> simp [h]
  · intro res h
    unfold queryPromise createPool poolEnd
    simp [h, List.erase_cons_head]
  · intro e h
    unfold queryPromise createPool poolEnd
    simp [h]

/-- C5 (witness): concrete successful call — the fresh pool 0 is created
and ended within the call. -/
theorem queryPromise_pool_lifecycle_witness :
    (queryPromise (fun _ _ => .ok (.rows [])) "SELECT 1" ⟨0, [], []⟩).2.openPools = []
    ∧ (queryPromise (fun _ _ => .ok (.rows [])) "SELECT 1" ⟨0, [], []⟩).2.endedPools = [0] :=
  (queryPromise_pool_lifecycle (fun _ _ => .ok (.rows [])) "SELECT 1" ⟨0, [], []⟩).2.1
    (.rows []) rfl

/-- C9: with a non-positive retry count the `while (attempt < retries)`
loop of executeQueryWithRetry never runs: the function returns
`undefined` (no thrown error), and the query is executed zero times (the
second component counts the `queryPromise` invocations). -/
theorem executeQueryWithRetry_nonpos (exec : Nat → Except String QPResult)
    (retries : Int) (h : retries ≤ 0) :
    executeQueryWithRetry exec retries = (.undef, 0) := by
  unfold executeQueryWithRetry
  rw [Int.toNat_of_nonpos h]
  rfl

/-- C9 (witness): concrete negative retry count. -/
theorem executeQueryWithRetry_nonpos_witness :
    executeQueryWithRetry (fun _ => .error "x") (-2) = (.undef, 0) :=
  executeQueryWithRetry_nonpos (fun _ => .error "x") (-2) (by decide)

/-- C10: assigning a non-array value to the `data` property is a no-op
on the whole state (only a warning is logged): `data` and `datum` are
unchanged.  Assigning an array stores it as `data` and resets `datum`
to its first element (`undefined` for an empty array). -/
theorem setData_array_and_nonarray (o : SQLObject) :
    (∀ v : JSValue, o.setData (.nonArray v) = o)
    ∧ (∀ rs : List Row,
        (o.setData (.arr rs)).dataGet = rs
        ∧ (o.setData (.arr rs))._data = some rs
        ∧ (o.setData (.arr rs))._datum = rs.head?) :=
  ⟨fun _ => rfl, fun _ => ⟨rfl, rfl, rfl⟩⟩

theorem retryGo_ok_of (exec : Nat → Except String QPResult) (retries : Int) :
    ∀ (fuel attempt i : Nat) (rows : QPResult),
      attempt ≤ i → (i : Int) < retries → (fuel : Int) = retries - attempt →
      (∀ j, attempt ≤ j → j < i → ∃ e, exec j = .error e) →
      exec i = .ok rows →
      (retryGo exec retries attempt fuel).1 = .success rows := by
  intro fuel
  induction fuel with
  | zero =>
    intro attempt i rows hai hir hf _ _
    exfalso
    omega
  | succ f ih =>
    intro attempt i rows hai hir hf hfail hok
    rcases Nat.eq_or_lt_of_le hai with heq | hlt
    · subst heq
      simp [retryGo, hok]
    · obtain ⟨e, he⟩ := hfail attempt le_rfl hlt
      have hcond : ¬ (retries ≤ (attempt + 1 : Int)) := by
        omega
      simp only [retryGo, he]
      rw [if_neg hcond]
      exact ih (attempt + 1) i rows hlt hir (by push_cast at hf ⊢; omega)
        (fun j hj1 hj2 => hfail j (by omega) hj2) hok

theorem retryGo_allfail (exec : Nat → Except String QPResult) (retries : Int) :
    ∀ (fuel attempt : Nat) (e : Nat → String),
      0 < fuel → (fuel : Int) = retries - attempt →
      (∀ i, attempt ≤ i → (i : Int) < retries → exec i = .error (e i)) →
      (retryGo exec retries attempt fuel).1
        = .thrown (retryErrorMsg retries (e (attempt + fuel - 1))) := by
  intro fuel
  induction fuel with
  | zero =>
    intro attempt e h _ _
    exact absurd h (by omega)
  | succ f ih =>
    intro attempt e _ hf hfail
    have hattempt : (attempt : Int) < retries := by push_cast at hf; omega
    have he : exec attempt = .error (e attempt) := hfail attempt le_rfl hattempt
    by_cases hc : retries ≤ (attempt + 1 : Int)
    · have hf0 : f = 0 := by push_cast at hf; omega
      subst hf0
      simp [retryGo, he, hc]
    · have h0f : 0 < f := by push_cast at hf; omega
      simp only [retryGo, he]
      rw [if_neg hc]
      have hx := ih (attempt + 1) e h0f (by push_cast at hf ⊢; omega)
        (fun i h1 h2 => hfail i (by omega) h2)
      rw [show attempt + (f + 1) - 1 = attempt + 1 + f - 1 from by omega]
      exact hx

/-- C6: executeQueryWithRetry behavior.  First part: if attempt `i`
(zero-based) is within the retry budget, every earlier attempt fails and
attempt `i` succeeds, the call returns that successful result — in
particular failing twice and succeeding on the third attempt with
retries = 3.  Second part: if every attempt within the budget fails
(retries positive), the call throws the wrapping error
`Query failed after <retries> attempts: <last error message>`. -/
theorem executeQueryWithRetry_retry_behavior (exec : Nat → Except String QPResult)
    (retries : Int) :
    (∀ (i : Nat) (rows : QPResult), (i : Int) < retries →
        (∀ j, j < i → ∃ e, exec j = .error e) → exec i = .ok rows →
        (executeQueryWithRetry exec retries).1 = .success rows)
    ∧ (∀ (e : Nat → String), 0 < retries →
        (∀ i : Nat, (i : Int) < retries → exec i = .error (e i)) →
        (executeQueryWithRetry exec retries).1
          = .thrown (retryErrorMsg retries (e (retries.toNat - 1)))) := by
  constructor
  · intro i rows hir hfail hok
    exact retryGo_ok_of exec retries retries.toNat 0 i rows (Nat.zero_le i) hir
      (by omega) (fun j _ hj => hfail j hj) hok
  · intro e hpos hfail
    have hx := retryGo_allfail exec retries retries.toNat 0 e (by omega) (by omega)
      (fun i _ h2 => hfail i h2)
    simpa using hx

/-- C6 (witness): an execution that fails on attempts 0 and 1 and
succeeds on attempt 2 returns the successful result with retries = 3;
an execution that fails on all three attempts throws the wrapping error
carrying the attempt count 3 and the last error message. -/
theorem executeQueryWithRetry_retry_behavior_witness :
    (executeQueryWithRetry
        (fun i => if i < 2 then .error ("e" ++ toString i) else .ok (.rows [])) 3).1
      = .success (.rows [])
    ∧ (executeQueryWithRetry (fun i => .error ("e" ++ toString i)) 3).1
      = .thrown "Query failed after 3 attempts: e2" := by
  constructor
  · exact (executeQueryWithRetry_retry_behavior
        (fun i => if i < 2 then .error ("e" ++ toString i) else .ok (.rows [])) 3).1
      2 (.rows []) (by decide)
      (fun j hj => ⟨"e" ++ toString j, by interval_cases j <;> rfl⟩) rfl
  · have hx := (executeQueryWithRetry_retry_behavior
        (fun i => .error ("e" ++ toString i)) 3).2
      (fun i => "e" ++ toString i) (by decide) (fun i _ => rfl)
    simpa [retryErrorMsg] using hx

/-- C7: behavior of SQLObject.read once the SELECT statement `q` has
been built.  Empty result: the method stores `{ query, response }` (the
query text and the empty row set) as the last operation, returns the
sentinel 0 (`ReadResult.empty`), and the current row (`_datum`) and row
set (`_data`) are exactly those of the original object.  Non-empty
result: the fetched rows replace `_data`, the first row replaces
`_datum`, the row set is returned and the `_read` flag is set. -/
theorem read_empty_and_nonempty (o : SQLObject) (props : List (String × JSValue))
    (db : String → Except String QPResult) (args : SelectArgs) (q : String)
    (hq : buildSelectQuery (o.initStep props)._table
        ((o.initStep props)._properties.getD []) (o.initStep props).idGet
        (o.initStep props)._key (o.initStep props).all args = .ok q) :
    (db q = .ok (.rows []) →
      SQLObject.read o props db args
        = (.ok .empty,
            { o.initStep props with
                _last := some { query := q, response := QPResult.rows [] } })
      ∧ ((SQLObject.read o props db args).2)._data = o._data
      ∧ ((SQLObject.read o props db args).2)._datum = o._datum)
    ∧ (∀ (r : Row) (rs : List Row), db q = .ok (.rows (r :: rs)) →
      SQLObject.read o props db args
        = (.ok (.rows (r :: rs)),
            { o.initStep props with
                _data := some (r :: rs), _datum := some r,
                _last := some { query := q, response := QPResult.rows (r :: rs) },
                _read := true })) := by
  have hqne : q ≠ "" := buildSelectQuery_ok_ne_empty _ _ _ _ _ _ _ hq
  have hlast : ∀ resp, mkLast q resp = { query := q, response := resp } := by
    intro resp
    unfold mkLast
    rw [if_neg hqne]
  constructor
  · intro hdb
    have hread : SQLObject.read o props db args
        = (.ok .empty,
            { o.initStep props with
                _last := some { query := q, response := QPResult.rows [] } }) := by
      simp only [SQLObject.read, hq, hdb, hlast]
    refine ⟨hread, ?_, ?_⟩
    · rw [hread]
      exact initStep_data o props
    · rw [hread]
      exact initStep_datum o props
  · intro r rs hdb
    simp only [SQLObject.read, hq, hdb, hlast]

/-- C7 (witness): concrete object, schema and an empty-result database:
read records the built SELECT with the empty row set as the last
operation, returns the empty sentinel, and leaves `_data` and `_datum`
untouched. -/
theorem read_empty_and_nonempty_witness :
    SQLObject.read sampleObj sampleProps sampleDb {}
      = (.ok .empty,
          { sampleObj.initStep sampleProps with
              _last := some { query := "SELECT * FROM widgets WHERE guid = \"g1\";",
                              response := QPResult.rows [] } })
    ∧ ((SQLObject.read sampleObj sampleProps sampleDb {}).2)._data = sampleObj._data
    ∧ ((SQLObject.read sampleObj sampleProps sampleDb {}).2)._datum = sampleObj._datum :=
  (read_empty_and_nonempty sampleObj sampleProps sampleDb {}
    "SELECT * FROM widgets WHERE guid = \"g1\";" rfl).1 rfl

/-- C8: SQLObject.create replaces the in-memory row state with the
schema-filtered subset of the given fields before the INSERT is built or
executed; hence whenever the call ends in a failure sentinel — 0
(`CreateResult.zero`, no buildable query) or undefined
(`CreateResult.undef`, the execution or the follow-up read threw) — the
object's `_datum` is the filtered row and `_data` is the one-element row
set holding it: the state has been overwritten even though the
operation failed. -/
theorem create_overwrites_state (o : SQLObject) (props : List (String × JSValue))
    (db : String → Except String QPResult) (args : List (String × JSValue)) :
    ((SQLObject.create o props db args).1 = .zero →
      ((SQLObject.create o props db args).2)._datum
          = some (createFilterFields ((o.initStep props)._properties.getD []) args)
        ∧ ((SQLObject.create o props db args).2)._data
          = some [createFilterFields ((o.initStep props)._properties.getD []) args])
    ∧ ((SQLObject.create o props db args).1 = .undef →
      ((SQLObject.create o props db args).2)._datum
          = some (createFilterFields ((o.initStep props)._properties.getD []) args)
        ∧ ((SQLObject.create o props db args).2)._data
          = some [createFilterFields ((o.initStep props)._properties.getD []) args]) := by
  simp only [SQLObject.create]
  split
  · exact ⟨fun _ => ⟨rfl, rfl⟩, fun h => nomatch h⟩
  · split
    · refine ⟨fun h => ?_, fun _ => ⟨rfl, rfl⟩⟩
      simp at h
    · split
      next e o4 heq =>
        have ho4 := read_error_state _ _ _ _ _ _ heq
        refine ⟨fun h => ?_, fun _ => ?_⟩
        · simp at h
        · rw [ho4, initStep_datum, initStep_data]
          exact ⟨rfl, rfl⟩
      next res o4 heq =>
        refine ⟨fun h => ?_, fun h => ?_⟩ <;> simp at h

/-- C8 (witness): creating with an empty fields object filters down to
an empty row, no INSERT can be built (result 0), and the in-memory state
has still been overwritten with the filtered (empty) row. -/
theorem create_overwrites_state_witness :
    ((SQLObject.create sampleObj sampleProps sampleDb []).2)._datum
        = some (createFilterFields ((sampleObj.initStep sampleProps)._properties.getD []) [])
    ∧ ((SQLObject.create sampleObj sampleProps sampleDb []).2)._data
        = some [createFilterFields ((sampleObj.initStep sampleProps)._properties.getD []) []] :=
  (create_overwrites_state sampleObj sampleProps sampleDb []).1 rfl
